import Mathlib

/-!
Verification of the email-acceptability filter and reason-to-message mapper
of the Express email-forwarding backend (routes `contact` and `subscribe`).

The JavaScript/TypeScript source is embedded shallowly:
strings are `String`/`List Char`, the DNS collaborator is an explicit
environment value, and each route's `isAcceptableEmail` early-return chain
becomes a chain of `if`s producing `Option String` (the rejection reason).
-/

set_option maxRecDepth 8192

/-- Code points of the characters JavaScript treats as whitespace
(`\s` in regexes and `String.prototype.trim`). -/
def jsWhitespaceCodes : List Nat :=
  [9, 10, 11, 12, 13, 32, 160, 0x1680, 0x2000, 0x2001, 0x2002, 0x2003, 0x2004,
   0x2005, 0x2006, 0x2007, 0x2008, 0x2009, 0x200A, 0x2028, 0x2029, 0x202F,
   0x205F, 0x3000, 0xFEFF]

/-- Model of the JavaScript whitespace class. -/
def isJsWhitespace (c : Char) : Bool :=
  jsWhitespaceCodes.contains c.toNat

/-- Model of `String.prototype.trim`: drop leading and trailing whitespace. -/
def jsTrimList (l : List Char) : List Char :=
  ((l.dropWhile isJsWhitespace).reverse.dropWhile isJsWhitespace).reverse

/-- Model of `String.prototype.split` with a single-character separator:
always returns at least one (possibly empty) piece. -/
def splitOnChar (sep : Char) : List Char → List (List Char)
  | [] => [[]]
  | c :: cs =>
    if c == sep then
      [] :: splitOnChar sep cs
    else
      match splitOnChar sep cs with
      | [] => [[c]]
      | h :: t => (c :: h) :: t

/-- Model of `String.prototype.toLowerCase` (ASCII letters). -/
def jsToLower (l : List Char) : List Char := l.map Char.toLower

/-- Does `pat` occur at the very start of `l`? -/
def startsWithSeq : List Char → List Char → Bool
  | [], _ => true
  | _ :: _, [] => false
  | p :: ps, x :: xs => p == x && startsWithSeq ps xs

/-- Does `pat` occur contiguously somewhere in `l`? -/
def occursIn (pat : List Char) : List Char → Bool
  | [] => pat.isEmpty
  | x :: xs => startsWithSeq pat (x :: xs) || occursIn pat xs

/-- Model of `String.prototype.includes`: `pat` occurs contiguously in `s`. -/
def jsIncludesStr (s pat : String) : Bool := occursIn pat.data s.data

/-- Does the list contain the character `c`? -/
def hasChar (c : Char) (l : List Char) : Bool := l.any (fun x => x == c)

/-- Model of `String.prototype.startsWith` with a one-character prefix. -/
def headIs (c : Char) : List Char → Bool
  | [] => false
  | x :: _ => x == c

/-- Model of `String.prototype.endsWith` with a one-character suffix. -/
def lastIs (c : Char) (l : List Char) : Bool := l.getLast? == some c

/-- Model of `.includes(\x27..\x27)`: two consecutive dots occur. -/
def hasDoubleDot (l : List Char) : Bool := occursIn ['.', '.'] l

/-- A dot occurs at an interior position (neither first nor last character). -/
def interiorDot (l : List Char) : Bool := hasChar '.' ((l.drop 1).dropLast)

/-- The part of `l` strictly after the first occurrence of `sep`
(`none` when `sep` does not occur). -/
def afterChar (sep : Char) : List Char → Option (List Char)
  | [] => none
  | c :: cs => if c == sep then some cs else afterChar sep cs

/-- Does a dot occur after the first `@` of `l`? (`false` when `l` has
no `@` at all.) -/
def hasDotAfterAt (l : List Char) : Bool :=
  match afterChar '@' l with
  | none => false
  | some rest => hasChar '.' rest

/-- Model of the regex test `^[^\s@]+@[^\s@]+\.[^\s@]+$`: exactly one `@`,
a non-empty whitespace-free local part before it, and after it a
whitespace-free part containing a dot at an interior position. -/
def simpleEmailTest (raw : List Char) : Bool :=
  match splitOnChar '@' raw with
  | [localPart, domainPart] =>
    !localPart.isEmpty && localPart.all (fun c => !isJsWhitespace c) &&
      domainPart.all (fun c => !isJsWhitespace c) && interiorDot domainPart
  | _ => false

/-- `raw.split(\x27@\x27)[0]`: the local part taken by the destructuring. -/
def localOf (raw : List Char) : List Char := (splitOnChar '@' raw).headD []

/-- `raw.split(\x27@\x27)[1]` (empty when absent): the domain part taken by
the destructuring. -/
def domainOf (raw : List Char) : List Char := ((splitOnChar '@' raw).drop 1).headD []

/-- `localPart.toLowerCase()` as a `String`. -/
def lowerLocalOf (raw : List Char) : String := String.mk (jsToLower (localOf raw))

/-- `domainPart.toLowerCase()` as a `String`. -/
def lowerDomainOf (raw : List Char) : String := String.mk (jsToLower (domainOf raw))

/-- Model of the regex test `^test\d*$` on the lowercased local part. -/
def startsWithTestDigits : List Char → Bool
  | 't' :: 'e' :: 's' :: 't' :: rest => rest.all Char.isDigit
  | _ => false

/-- The test/dummy heuristic of rule 9: `^test\d*$`, or `test` or `dummy`
as a substring of the lowercased local part. -/
def localLooksTestDummy (s : String) : Bool :=
  startsWithTestDigits s.data || jsIncludesStr s "test" || jsIncludesStr s "dummy"

/-- The numeric-domain heuristic of rule 10: after removing every dot,
the lowercased domain is a non-empty string of digits (`^\d+$`). -/
def domainDigitsOnly (s : String) : Bool :=
  let stripped := s.data.filter (fun c => !(c == '.'))
  !stripped.isEmpty && stripped.all Char.isDigit

/-- The filter's verdict: `{ ok: true }` or `{ ok: false, reason }`. -/
inductive Verdict where
  | accepted : Verdict
  | rejected (reason : String) : Verdict
deriving DecidableEq

/-- Outcome of one DNS lookup: the promise either rejects or resolves to a
list of records (records themselves are irrelevant to the filter). -/
inductive DnsResult where
  | failure : DnsResult
  | success (records : List Unit) : DnsResult
deriving DecidableEq

/-- The DNS world a single filter invocation observes: the results the
`resolveMx`, `resolve(..,\x27A\x27)` and `resolve(..,\x27AAAA\x27)` calls
would produce for the candidate's domain. -/
structure DnsEnv where
  mx : DnsResult
  a : DnsResult
  aaaa : DnsResult
deriving DecidableEq

/-- Model of `dns.resolve(..).catch(() => [])`: a rejected lookup is
replaced by the empty record list. -/
def effRecords : DnsResult → List Unit
  | .failure => []
  | .success l => l

/-- The MX lookup itself raised (only this lookup can reach the `catch`). -/
def dnsFailed (env : DnsEnv) : Bool :=
  match env.mx with
  | .failure => true
  | .success _ => false

/-- The MX lookup succeeded empty and both fallback lookups were empty
(after `.catch(() => [])` folding errors to `[]`). -/
def dnsNoServers (env : DnsEnv) : Bool :=
  (match env.mx with
   | .failure => false
   | .success l => l.isEmpty) &&
  (effRecords env.a).isEmpty && (effRecords env.aaaa).isEmpty

/-- The `{code, message, field}` triple returned by the mapper. -/
structure UserMessage where
  code : String
  message : String
  field : String
deriving DecidableEq

namespace Contact

/-- `exampleDomains` of `src/routes/contact.ts`. -/
def exampleDomains : List String :=
  ["example.com", "example.org", "example.net", "example.co", "example"]

/-- `disposableDomains` of `src/routes/contact.ts`. -/
def disposableDomains : List String :=
  ["mailinator.com", "10minutemail.com", "temp-mail.org", "tempmail.net",
   "yopmail.com", "guerrillamail.com", "maildrop.cc", "getnada.com",
   "trashmail.com", "dispostable.com", "trashmail.net", "mailnesia.com",
   "temp-mail.io", "spamgourmet.com", "mintemail.com", "mail-temporaire.fr",
   "caainpt.com"]

/-- `blockedLocalExact` of `src/routes/contact.ts`. -/
def blockedLocalExact : List String :=
  ["admin", "administrator", "postmaster", "hostmaster", "webmaster", "info",
   "support", "sales", "contact", "abuse", "security", "noreply", "no-reply",
   "notifications", "mailer-daemon", "root", "test", "example", "null", "dummy"]

/-- The pure early-return chain of `isAcceptableEmail` in
`src/routes/contact.ts` (lines 31-119), applied to the trimmed candidate:
`some reason` is an early `return { ok: false, reason }`, `none` means the
chain fell through to the optional DNS step. -/
def pureVerdict (raw : List Char) : Option String :=
  if raw.isEmpty then some "empty email"
  else if !simpleEmailTest raw then some "invalid format"
  else if (localOf raw).isEmpty || (domainOf raw).isEmpty then some "invalid format"
  else if decide ((localOf raw).length > 64) then some "local part too long"
  else if decide ((domainOf raw).length > 255) then some "domain too long"
  else if headIs '.' (localOf raw) || lastIs '.' (localOf raw) || hasDoubleDot (localOf raw) then
    some "invalid local"
  else if headIs '-' (domainOf raw) || lastIs '-' (domainOf raw) || hasDoubleDot (domainOf raw) then
    some "invalid domain"
  else if exampleDomains.contains (lowerDomainOf raw) || jsIncludesStr (lowerDomainOf raw) "example" then
    some "blocked domain (example)"
  else if disposableDomains.contains (lowerDomainOf raw) then
    some "disposable email provider"
  else if blockedLocalExact.contains (lowerLocalOf raw) then
    some "role or test account blocked"
  else if localLooksTestDummy (lowerLocalOf raw) then
    some "test/dummy address blocked"
  else if domainDigitsOnly (lowerDomainOf raw) then
    some "suspicious domain"
  else none

/-- The DNS block of `isAcceptableEmail` (lines 121-135): an MX failure is
caught and rejected as unverifiable; an empty MX answer falls back to A and
AAAA lookups whose errors are folded to `[]` by `.catch(() => [])`. -/
def dnsVerdict (env : DnsEnv) : Option String :=
  match env.mx with
  | .failure => some "domain verification failed"
  | .success mx =>
    if mx.isEmpty then
      if (effRecords env.a).isEmpty && (effRecords env.aaaa).isEmpty then
        some "no mail servers for domain (MX/A/AAAA missing)"
      else none
    else none

/-- `isAcceptableEmail` of `src/routes/contact.ts`, with the `MX_CHECK`
flag and the DNS world passed explicitly. -/
def isAcceptableEmail (checkMx : Bool) (env : DnsEnv) (email : String) : Verdict :=
  match pureVerdict (jsTrimList email.data) with
  | some r => .rejected r
  | none =>
    if checkMx then
      match dnsVerdict env with
      | some r => .rejected r
      | none => .accepted
    else .accepted

/-- `userMessageForReason` of `src/routes/contact.ts` (lines 141-167). -/
def userMessageForReason (reason : String) : UserMessage :=
  let r := String.mk (jsToLower reason.data)
  if jsIncludesStr r "empty" then
    ⟨"email_missing", "Please enter your email address.", "email"⟩
  else if jsIncludesStr r "invalid format" || jsIncludesStr r "invalid local" || jsIncludesStr r "invalid domain" then
    ⟨"email_invalid_format", "That email address doesn\x27t look right — please check and try again.", "email"⟩
  else if jsIncludesStr r "local part too long" || jsIncludesStr r "domain too long" then
    ⟨"email_too_long", "That email address is too long. Try a shorter address.", "email"⟩
  else if jsIncludesStr r "blocked domain" || jsIncludesStr r "example" then
    ⟨"email_blocked_domain", "We don\x27t accept addresses from that domain. Please use a different email.", "email"⟩
  else if jsIncludesStr r "disposable" || jsIncludesStr r "temporary" || jsIncludesStr r "temp" then
    ⟨"email_disposable", "Temporary/disposable email addresses aren\x27t accepted. Please use an address you check regularly.", "email"⟩
  else if jsIncludesStr r "role" || jsIncludesStr r "test" || jsIncludesStr r "dummy" || jsIncludesStr r "role or test" then
    ⟨"email_role_or_test", "Please enter a personal email address (not \x27admin\x27, \x27info\x27, or \x27test\x27).", "email"⟩
  else if jsIncludesStr r "no mail servers" || jsIncludesStr r "domain verification failed" then
    ⟨"email_domain_unverified", "We couldn\x27t verify that email\x27s domain. Please check your email or try another address.", "email"⟩
  else
    ⟨"email_unacceptable", "We can\x27t send a confirmation to that email address. Please try a different one.", "email"⟩

end Contact

namespace Subscribe

/-- `exampleDomains` of the subscribe route's `isAcceptableEmail`. -/
def exampleDomains : List String :=
  ["example.com", "example.org", "example.net", "example.co", "example"]

/-- `disposableDomains` of the subscribe route's `isAcceptableEmail`. -/
def disposableDomains : List String :=
  ["mailinator.com", "10minutemail.com", "temp-mail.org", "tempmail.net",
   "yopmail.com", "guerrillamail.com", "maildrop.cc", "getnada.com",
   "trashmail.com", "dispostable.com", "trashmail.net", "mailnesia.com",
   "temp-mail.io", "spamgourmet.com", "mintemail.com", "mail-temporaire.fr",
   "caainpt.com"]

/-- `blockedLocalExact` of the subscribe route's `isAcceptableEmail`. -/
def blockedLocalExact : List String :=
  ["admin", "administrator", "postmaster", "hostmaster", "webmaster", "info",
   "support", "sales", "contact", "abuse", "security", "noreply", "no-reply",
   "notifications", "mailer-daemon", "root", "test", "example", "null", "dummy"]

/-- The pure early-return chain of the subscribe route's `isAcceptableEmail`
(lines 29-125 of `src/routes/subscribe.ts`); it differs from the contact
route's copy only in the reason of the local-part-shape rule
(`invalid local part` instead of `invalid local`). -/
def pureVerdict (raw : List Char) : Option String :=
  if raw.isEmpty then some "empty email"
  else if !simpleEmailTest raw then some "invalid format"
  else if (localOf raw).isEmpty || (domainOf raw).isEmpty then some "invalid format"
  else if decide ((localOf raw).length > 64) then some "local part too long"
  else if decide ((domainOf raw).length > 255) then some "domain too long"
  else if headIs '.' (localOf raw) || lastIs '.' (localOf raw) || hasDoubleDot (localOf raw) then
    some "invalid local part"
  else if headIs '-' (domainOf raw) || lastIs '-' (domainOf raw) || hasDoubleDot (domainOf raw) then
    some "invalid domain"
  else if exampleDomains.contains (lowerDomainOf raw) || jsIncludesStr (lowerDomainOf raw) "example" then
    some "blocked domain (example)"
  else if disposableDomains.contains (lowerDomainOf raw) then
    some "disposable email provider"
  else if blockedLocalExact.contains (lowerLocalOf raw) then
    some "role or test account blocked"
  else if localLooksTestDummy (lowerLocalOf raw) then
    some "test/dummy address blocked"
  else if domainDigitsOnly (lowerDomainOf raw) then
    some "suspicious domain"
  else none

/-- The DNS block of the subscribe route's `isAcceptableEmail`
(lines 130-146), identical to the contact route's. -/
def dnsVerdict (env : DnsEnv) : Option String :=
  match env.mx with
  | .failure => some "domain verification failed"
  | .success mx =>
    if mx.isEmpty then
      if (effRecords env.a).isEmpty && (effRecords env.aaaa).isEmpty then
        some "no mail servers for domain (MX/A/AAAA missing)"
      else none
    else none

/-- `isAcceptableEmail` of `src/routes/subscribe.ts`, with the `MX_CHECK`
flag and the DNS world passed explicitly. -/
def isAcceptableEmail (checkMx : Bool) (env : DnsEnv) (email : String) : Verdict :=
  match pureVerdict (jsTrimList email.data) with
  | some r => .rejected r
  | none =>
    if checkMx then
      match dnsVerdict env with
      | some r => .rejected r
      | none => .accepted
    else .accepted

/-- `userMessageForReason` of `src/routes/subscribe.ts` (lines 152-211);
note the duplicated `invalid format` disjunct of the source. -/
def userMessageForReason (reason : String) : UserMessage :=
  let r := String.mk (jsToLower reason.data)
  if jsIncludesStr r "empty" then
    ⟨"email_missing", "Please enter your email address.", "email"⟩
  else if jsIncludesStr r "invalid format" || jsIncludesStr r "invalid local" || jsIncludesStr r "invalid domain" || jsIncludesStr r "invalid format" then
    ⟨"email_invalid_format", "That email address doesn\x27t look right — please check and try again.", "email"⟩
  else if jsIncludesStr r "local part too long" || jsIncludesStr r "domain too long" then
    ⟨"email_too_long", "That email address is too long. Try a shorter address.", "email"⟩
  else if jsIncludesStr r "blocked domain" || jsIncludesStr r "example" then
    ⟨"email_blocked_domain", "We don\x27t accept addresses from that domain. Please use a different email.", "email"⟩
  else if jsIncludesStr r "disposable" || jsIncludesStr r "temporary" || jsIncludesStr r "temp" then
    ⟨"email_disposable", "Temporary/disposable email addresses aren\x27t accepted. Please use a real address you check regularly.", "email"⟩
  else if jsIncludesStr r "role" || jsIncludesStr r "test" || jsIncludesStr r "dummy" || jsIncludesStr r "role or test" then
    ⟨"email_role_or_test", "Please enter a personal email address (not \x27admin\x27, \x27info\x27, or \x27test\x27).", "email"⟩
  else if jsIncludesStr r "no mail servers" || jsIncludesStr r "domain verification failed" then
    ⟨"email_domain_unverified", "We couldn\x27t verify the email\x27s domain. Please check your email or try another address.", "email"⟩
  else
    ⟨"email_unacceptable", "We can\x27t send a confirmation to that email address. Please try a different one.", "email"⟩

end Subscribe

/-- The JSON body of `POST /api/subscribe`. -/
structure SubscribePayload where
  email : Option String
  project : Option String
  name : Option String

/-- Observable outcome of one subscribe request: HTTP status, the `ok`
flag, the stable `code` of the body (when present), and how many
`sendMail` calls were attempted. -/
structure SubscribeOutcome where
  status : Nat
  ok : Bool
  code : Option String
  sends : Nat
deriving DecidableEq

namespace Subscribe

/-- The `router.post(\x27/subscribe\x27)` handler of `src/routes/subscribe.ts`
(lines 213-266), with the mail transport assumed to succeed: missing email
gives 400; a rejected address gives 422 with the mapped code and no send;
an accepted address sends the admin notification and the confirmation. -/
def handler (checkMx : Bool) (env : DnsEnv) (body : SubscribePayload) : SubscribeOutcome :=
  let email := String.mk (jsTrimList (body.email.getD "").data)
  if email == "" then ⟨400, false, none, 0⟩
  else
    match isAcceptableEmail checkMx env email with
    | .rejected reason => ⟨422, false, some (userMessageForReason reason).code, 0⟩
    | .accepted => ⟨200, true, none, 2⟩

end Subscribe

/-- A rule of the filter pipeline: a total predicate on the trimmed
candidate (`true` means the rule fails the candidate) and the reason
attached to the rule. -/
def firstFailure : List ((List Char → Bool) × String) → List Char → Option String
  | [], _ => none
  | (p, r) :: rest, raw => if p raw then some r else firstFailure rest raw

namespace Contact

/-- The contact filter's rules in their fixed priority order, each as an
independent total predicate paired with its reason (the format rule
contributes its two checks, the DNS rule its two reasons). -/
def ruleList (checkMx : Bool) (env : DnsEnv) : List ((List Char → Bool) × String) :=
  [(fun raw => raw.isEmpty, "empty email"),
   (fun raw => !simpleEmailTest raw, "invalid format"),
   (fun raw => (localOf raw).isEmpty || (domainOf raw).isEmpty, "invalid format"),
   (fun raw => decide ((localOf raw).length > 64), "local part too long"),
   (fun raw => decide ((domainOf raw).length > 255), "domain too long"),
   (fun raw => headIs '.' (localOf raw) || lastIs '.' (localOf raw) || hasDoubleDot (localOf raw), "invalid local"),
   (fun raw => headIs '-' (domainOf raw) || lastIs '-' (domainOf raw) || hasDoubleDot (domainOf raw), "invalid domain"),
   (fun raw => exampleDomains.contains (lowerDomainOf raw) || jsIncludesStr (lowerDomainOf raw) "example", "blocked domain (example)"),
   (fun raw => disposableDomains.contains (lowerDomainOf raw), "disposable email provider"),
   (fun raw => blockedLocalExact.contains (lowerLocalOf raw), "role or test account blocked"),
   (fun raw => localLooksTestDummy (lowerLocalOf raw), "test/dummy address blocked"),
   (fun raw => domainDigitsOnly (lowerDomainOf raw), "suspicious domain"),
   (fun _ => checkMx && dnsFailed env, "domain verification failed"),
   (fun _ => checkMx && dnsNoServers env, "no mail servers for domain (MX/A/AAAA missing)")]

/-- The first-matching-rule reading of the filter: trim the candidate, scan
the rules in order, reject with the first failing rule's reason, accept
when no rule fails. -/
def checkViaRules (checkMx : Bool) (env : DnsEnv) (email : String) : Verdict :=
  match firstFailure (ruleList checkMx env) (jsTrimList email.data) with
  | some r => .rejected r
  | none => .accepted

/-- The first twelve (pure) entries of `ruleList`. -/
def pureRuleList : List ((List Char → Bool) × String) :=
  [(fun raw => raw.isEmpty, "empty email"),
   (fun raw => !simpleEmailTest raw, "invalid format"),
   (fun raw => (localOf raw).isEmpty || (domainOf raw).isEmpty, "invalid format"),
   (fun raw => decide ((localOf raw).length > 64), "local part too long"),
   (fun raw => decide ((domainOf raw).length > 255), "domain too long"),
   (fun raw => headIs '.' (localOf raw) || lastIs '.' (localOf raw) || hasDoubleDot (localOf raw), "invalid local"),
   (fun raw => headIs '-' (domainOf raw) || lastIs '-' (domainOf raw) || hasDoubleDot (domainOf raw), "invalid domain"),
   (fun raw => exampleDomains.contains (lowerDomainOf raw) || jsIncludesStr (lowerDomainOf raw) "example", "blocked domain (example)"),
   (fun raw => disposableDomains.contains (lowerDomainOf raw), "disposable email provider"),
   (fun raw => blockedLocalExact.contains (lowerLocalOf raw), "role or test account blocked"),
   (fun raw => localLooksTestDummy (lowerLocalOf raw), "test/dummy address blocked"),
   (fun raw => domainDigitsOnly (lowerDomainOf raw), "suspicious domain")]

/-- The last two (DNS) entries of `ruleList`. -/
def dnsRuleList (checkMx : Bool) (env : DnsEnv) : List ((List Char → Bool) × String) :=
  [(fun _ => checkMx && dnsFailed env, "domain verification failed"),
   (fun _ => checkMx && dnsNoServers env, "no mail servers for domain (MX/A/AAAA missing)")]

end Contact

/-- Rename the subscribe filter's local-part-shape reason string to the
contact filter's; every other reason is unchanged. -/
def renameReasonStr (r : String) : String :=
  if r == "invalid local part" then "invalid local" else r

/-- Rename the subscribe filter's local-part-shape reason to the contact
filter's; every other verdict is unchanged. -/
def renameLocalReason : Verdict → Verdict
  | .accepted => .accepted
  | .rejected r => .rejected (renameReasonStr r)

namespace Subscribe

/-- The subscribe filter's pure rules in their fixed priority order (the
analogue of `Contact.pureRuleList`). -/
def pureRuleList : List ((List Char → Bool) × String) :=
  [(fun raw => raw.isEmpty, "empty email"),
   (fun raw => !simpleEmailTest raw, "invalid format"),
   (fun raw => (localOf raw).isEmpty || (domainOf raw).isEmpty, "invalid format"),
   (fun raw => decide ((localOf raw).length > 64), "local part too long"),
   (fun raw => decide ((domainOf raw).length > 255), "domain too long"),
   (fun raw => headIs '.' (localOf raw) || lastIs '.' (localOf raw) || hasDoubleDot (localOf raw), "invalid local part"),
   (fun raw => headIs '-' (domainOf raw) || lastIs '-' (domainOf raw) || hasDoubleDot (domainOf raw), "invalid domain"),
   (fun raw => exampleDomains.contains (lowerDomainOf raw) || jsIncludesStr (lowerDomainOf raw) "example", "blocked domain (example)"),
   (fun raw => disposableDomains.contains (lowerDomainOf raw), "disposable email provider"),
   (fun raw => blockedLocalExact.contains (lowerLocalOf raw), "role or test account blocked"),
   (fun raw => localLooksTestDummy (lowerLocalOf raw), "test/dummy address blocked"),
   (fun raw => domainDigitsOnly (lowerDomainOf raw), "suspicious domain")]

end Subscribe

/-- The eight stable codes the mapper can return. -/
def theEightCodes : List String :=
  ["email_missing", "email_invalid_format", "email_too_long",
   "email_blocked_domain", "email_disposable", "email_role_or_test",
   "email_domain_unverified", "email_unacceptable"]

/-- Modelled from the spec (mapper contract): a classification table scanned
in order; a row matches when any of its patterns is a substring of the
lowercased reason; the first matching row's message is returned, and the
fallback message when no row matches. -/
def tableLookup (rows : List (List String × UserMessage)) (fallback : UserMessage)
    (reason : String) : UserMessage :=
  let r := String.mk (jsToLower reason.data)
  match rows.find? (fun row => row.1.any (fun pat => jsIncludesStr r pat)) with
  | some row => row.2
  | none => fallback

namespace Contact

/-- The contact mapper's table: patterns and messages, in source order. -/
def mapperRows : List (List String × UserMessage) :=
  [(["empty"],
    ⟨"email_missing", "Please enter your email address.", "email"⟩),
   (["invalid format", "invalid local", "invalid domain"],
    ⟨"email_invalid_format", "That email address doesn\x27t look right — please check and try again.", "email"⟩),
   (["local part too long", "domain too long"],
    ⟨"email_too_long", "That email address is too long. Try a shorter address.", "email"⟩),
   (["blocked domain", "example"],
    ⟨"email_blocked_domain", "We don\x27t accept addresses from that domain. Please use a different email.", "email"⟩),
   (["disposable", "temporary", "temp"],
    ⟨"email_disposable", "Temporary/disposable email addresses aren\x27t accepted. Please use an address you check regularly.", "email"⟩),
   (["role", "test", "dummy", "role or test"],
    ⟨"email_role_or_test", "Please enter a personal email address (not \x27admin\x27, \x27info\x27, or \x27test\x27).", "email"⟩),
   (["no mail servers", "domain verification failed"],
    ⟨"email_domain_unverified", "We couldn\x27t verify that email\x27s domain. Please check your email or try another address.", "email"⟩)]

/-- The contact mapper's fallback message. -/
def fallbackMessage : UserMessage :=
  ⟨"email_unacceptable", "We can\x27t send a confirmation to that email address. Please try a different one.", "email"⟩

end Contact

namespace Subscribe

/-- The subscribe mapper's table: patterns and messages, in source order. -/
def mapperRows : List (List String × UserMessage) :=
  [(["empty"],
    ⟨"email_missing", "Please enter your email address.", "email"⟩),
   (["invalid format", "invalid local", "invalid domain", "invalid format"],
    ⟨"email_invalid_format", "That email address doesn\x27t look right — please check and try again.", "email"⟩),
   (["local part too long", "domain too long"],
    ⟨"email_too_long", "That email address is too long. Try a shorter address.", "email"⟩),
   (["blocked domain", "example"],
    ⟨"email_blocked_domain", "We don\x27t accept addresses from that domain. Please use a different email.", "email"⟩),
   (["disposable", "temporary", "temp"],
    ⟨"email_disposable", "Temporary/disposable email addresses aren\x27t accepted. Please use a real address you check regularly.", "email"⟩),
   (["role", "test", "dummy", "role or test"],
    ⟨"email_role_or_test", "Please enter a personal email address (not \x27admin\x27, \x27info\x27, or \x27test\x27).", "email"⟩),
   (["no mail servers", "domain verification failed"],
    ⟨"email_domain_unverified", "We couldn\x27t verify the email\x27s domain. Please check your email or try another address.", "email"⟩)]

/-- The subscribe mapper's fallback message. -/
def fallbackMessage : UserMessage :=
  ⟨"email_unacceptable", "We can\x27t send a confirmation to that email address. Please try a different one.", "email"⟩

end Subscribe


/-- A DNS world in which every lookup succeeds with an empty record list;
used to instantiate the filter when DNS verification is disabled. -/
def envAllOk : DnsEnv := ⟨.success [], .success [], .success []⟩

/-- Unfolding lemma for `firstFailure` on a cons cell. -/
theorem firstFailure_cons (p : List Char → Bool) (r : String)
    (rest : List ((List Char → Bool) × String)) (raw : List Char) :
    firstFailure ((p, r) :: rest) raw = if p raw then some r else firstFailure rest raw := rfl

/-- Scanning a concatenated rule list first scans the left part. -/
theorem firstFailure_append (l1 l2 : List ((List Char → Bool) × String)) (raw : List Char) :
    firstFailure (l1 ++ l2) raw =
      (match firstFailure l1 raw with
       | some r => some r
       | none => firstFailure l2 raw) := by
  induction l1 with
  | nil => rfl
  | cons x rest ih =>
    obtain ⟨p, r⟩ := x
    by_cases h : p raw <;> simp [firstFailure_cons, h, ih]

/-- The pure prefix of the rule list scans exactly as the source's pure
early-return chain. -/
theorem firstFailure_pureRuleList (raw : List Char) :
    firstFailure Contact.pureRuleList raw = Contact.pureVerdict raw := rfl

/-- The two DNS rules scan exactly as the source's optional DNS block. -/
theorem firstFailure_dnsRuleList (checkMx : Bool) (env : DnsEnv) (raw : List Char) :
    firstFailure (Contact.dnsRuleList checkMx env) raw =
      (if checkMx then Contact.dnsVerdict env else none) := by
  cases checkMx with
  | false => simp [Contact.dnsRuleList, firstFailure]
  | true =>
    obtain ⟨mx, a, aaaa⟩ := env
    cases mx with
    | failure => simp [Contact.dnsRuleList, firstFailure, dnsFailed, Contact.dnsVerdict]
    | success l =>
      cases l with
      | nil =>
        simp only [Contact.dnsRuleList, firstFailure, dnsFailed, dnsNoServers,
          Contact.dnsVerdict, effRecords, List.isEmpty_nil, Bool.true_and, Bool.and_true]
        split_ifs <;> simp_all
      | cons x xs =>
        simp [Contact.dnsRuleList, firstFailure, dnsFailed, dnsNoServers, Contact.dnsVerdict]

/-- Scanning the contact rule list agrees with the source's early-return
chain followed by the optional DNS block. -/
theorem contact_ruleList_firstFailure (checkMx : Bool) (env : DnsEnv) (raw : List Char) :
    firstFailure (Contact.ruleList checkMx env) raw =
      (match Contact.pureVerdict raw with
       | some r => some r
       | none => if checkMx then Contact.dnsVerdict env else none) := by
  rw [show Contact.ruleList checkMx env = Contact.pureRuleList ++ Contact.dnsRuleList checkMx env from rfl,
    firstFailure_append, firstFailure_pureRuleList, firstFailure_dnsRuleList]

/-- Claim C1: whenever the contact filter rejects a candidate, the verdict
carries exactly the reason of the first rule, in the fixed priority order,
whose predicate fails on the (trimmed) candidate: the filter coincides with
a first-matching-rule scan of `Contact.ruleList`. -/
theorem contact_verdict_first_failing_rule (checkMx : Bool) (env : DnsEnv) (email : String) :
    Contact.isAcceptableEmail checkMx env email = Contact.checkViaRules checkMx env email := by
  unfold Contact.isAcceptableEmail Contact.checkViaRules
  rw [contact_ruleList_firstFailure]
  cases hp : Contact.pureVerdict (jsTrimList email.data) <;> simp
  cases checkMx <;> simp

/-- Claim C3: a subscribe request whose body is `{"email":"test@gmail.com"}`
is rejected by the filter and answered with HTTP 422, `ok:false`, code
`email_role_or_test`, and no `sendMail` attempt, whatever the `MX_CHECK`
flag and the DNS world. -/
theorem subscribe_test_gmail_rejected_422 (checkMx : Bool) (env : DnsEnv) :
    Subscribe.handler checkMx env ⟨some "test@gmail.com", none, none⟩ =
      ⟨422, false, some "email_role_or_test", 0⟩ := rfl

/-- Claim C7 (counterexample): the filter rejects the empty string with the
literal reason `empty email`, not `empty`. -/
theorem empty_reason_is_empty_email_not_empty :
    Contact.isAcceptableEmail false envAllOk "" = .rejected "empty email" ∧
      Verdict.rejected "empty email" ≠ Verdict.rejected "empty" := by decide

/-- Claim C7 (amended): the filter rejects the empty string with reason
`empty email` (whatever the DNS flag and world), and the mapper sends that
reason to code `email_missing`. -/
theorem empty_string_rejected_and_mapped_missing (checkMx : Bool) (env : DnsEnv) :
    Contact.isAcceptableEmail checkMx env "" = .rejected "empty email" ∧
      (Contact.userMessageForReason "empty email").code = "email_missing" :=
  ⟨rfl, rfl⟩

/-- Claim C8: with DNS verification disabled, `jane.doe@gmail.com` is
accepted — no rule of the sequence fails on it. -/
theorem jane_doe_gmail_accepted (env : DnsEnv) :
    Contact.isAcceptableEmail false env "jane.doe@gmail.com" = .accepted ∧
      firstFailure (Contact.ruleList false env) (jsTrimList "jane.doe@gmail.com".data) = none :=
  ⟨rfl, rfl⟩

/-- Claim C9: with DNS verification disabled the filter is deterministic —
its verdict does not depend on the ambient DNS world, so two applications
to the same candidate always produce the same verdict. -/
theorem contact_check_deterministic_without_dns (email : String) (env1 env2 : DnsEnv) :
    Contact.isAcceptableEmail false env1 email = Contact.isAcceptableEmail false env2 email := by
  unfold Contact.isAcceptableEmail
  cases Contact.pureVerdict (jsTrimList email.data) <;> simp

/-- Claim C4 (counterexample): on `.a@b.cd` the two embedded filters return
different reason strings. -/
theorem contact_subscribe_reason_mismatch :
    Contact.isAcceptableEmail false envAllOk ".a@b.cd" = .rejected "invalid local" ∧
      Subscribe.isAcceptableEmail false envAllOk ".a@b.cd" = .rejected "invalid local part" ∧
      Contact.isAcceptableEmail false envAllOk ".a@b.cd" ≠
        Subscribe.isAcceptableEmail false envAllOk ".a@b.cd" := by decide

/-- Claim C2 (counterexample): with DNS verification enabled, an A-record
lookup that raises is swallowed by `.catch(() => [])`: the rejection reason
is `no mail servers for domain (MX/A/AAAA missing)`, not
`domain verification failed`. -/
theorem a_lookup_error_not_verification_failed :
    Contact.isAcceptableEmail true ⟨.success [], .failure, .success []⟩ "jane.doe@gmail.com" =
        .rejected "no mail servers for domain (MX/A/AAAA missing)" ∧
      Contact.isAcceptableEmail true ⟨.success [], .failure, .success []⟩ "jane.doe@gmail.com" ≠
        .rejected "domain verification failed" := by decide

/-- Renaming a rule list's reasons commutes with scanning it. -/
theorem firstFailure_map_reason (f : String → String)
    (l : List ((List Char → Bool) × String)) (raw : List Char) :
    firstFailure (l.map (fun pr => (pr.1, f pr.2))) raw =
      Option.map f (firstFailure l raw) := by
  induction l with
  | nil => rfl
  | cons x rest ih =>
    obtain ⟨p, r⟩ := x
    by_cases h : p raw <;> simp [firstFailure_cons, h, ih]

/-- The contact filter's pure rules are the subscribe filter's pure rules
with the local-part-shape reason renamed. -/
theorem contact_pureRuleList_eq_map :
    Contact.pureRuleList =
      Subscribe.pureRuleList.map (fun pr => (pr.1, renameReasonStr pr.2)) := rfl

/-- The two pure chains agree up to the renaming of the local-part-shape
reason. -/
theorem contact_pure_eq_rename (raw : List Char) :
    Contact.pureVerdict raw = Option.map renameReasonStr (Subscribe.pureVerdict raw) := by
  rw [show Contact.pureVerdict raw = firstFailure Contact.pureRuleList raw from rfl,
    show Subscribe.pureVerdict raw = firstFailure Subscribe.pureRuleList raw from rfl,
    contact_pureRuleList_eq_map, firstFailure_map_reason]

/-- The DNS blocks of the two filters are identical. -/
theorem contact_dns_eq_subscribe (env : DnsEnv) :
    Contact.dnsVerdict env = Subscribe.dnsVerdict env := rfl

/-- The renaming does not touch either DNS reason. -/
theorem dns_rename_id (env : DnsEnv) :
    Option.map renameReasonStr (Subscribe.dnsVerdict env) = Subscribe.dnsVerdict env := by
  obtain ⟨mx, a, aaaa⟩ := env
  cases mx with
  | failure => rfl
  | success l =>
    simp only [Subscribe.dnsVerdict]
    split_ifs <;> rfl

/-- Claim C4 (amended): for every candidate, flag and DNS world, the two
embedded copies of `isAcceptableEmail` agree on accept/reject and on the
reason string, except that a local-part-shape failure is reported as
`invalid local` by the contact copy and `invalid local part` by the
subscribe copy. -/
theorem contact_subscribe_filters_agree (checkMx : Bool) (env : DnsEnv) (email : String) :
    Contact.isAcceptableEmail checkMx env email =
      renameLocalReason (Subscribe.isAcceptableEmail checkMx env email) := by
  unfold Contact.isAcceptableEmail Subscribe.isAcceptableEmail
  rw [contact_pure_eq_rename, contact_dns_eq_subscribe]
  cases hp : Subscribe.pureVerdict (jsTrimList email.data) with
  | some r => simp [renameLocalReason]
  | none =>
    cases checkMx with
    | false => simp [renameLocalReason]
    | true =>
      cases hd : Subscribe.dnsVerdict env with
      | none => simp [renameLocalReason]
      | some r =>
        have hr : renameReasonStr r = r := by
          have h2 := dns_rename_id env
          rw [hd] at h2
          simpa using h2
        simp [renameLocalReason, hr]

/-- The contact mapper's if-chain equals a first-match scan of its table. -/
theorem contact_mapper_eq_table (reason : String) :
    Contact.userMessageForReason reason =
      tableLookup Contact.mapperRows Contact.fallbackMessage reason := by
  simp only [Contact.userMessageForReason, tableLookup, Contact.mapperRows,
    Contact.fallbackMessage]
  generalize String.mk (jsToLower reason.data) = r
  simp only [Bool.or_assoc]
  cases h1 : jsIncludesStr r "empty" with
  | true => simp [List.find?, h1]
  | false =>
  cases h2 : (jsIncludesStr r "invalid format" || (jsIncludesStr r "invalid local" || jsIncludesStr r "invalid domain")) with
  | true => simp [List.find?, h1, h2]
  | false =>
  cases h3 : (jsIncludesStr r "local part too long" || jsIncludesStr r "domain too long") with
  | true => simp [List.find?, h1, h2, h3]
  | false =>
  cases h4 : (jsIncludesStr r "blocked domain" || jsIncludesStr r "example") with
  | true => simp [List.find?, h1, h2, h3, h4]
  | false =>
  cases h5 : (jsIncludesStr r "disposable" || (jsIncludesStr r "temporary" || jsIncludesStr r "temp")) with
  | true => simp [List.find?, h1, h2, h3, h4, h5]
  | false =>
  cases h6 : (jsIncludesStr r "role" || (jsIncludesStr r "test" || (jsIncludesStr r "dummy" || jsIncludesStr r "role or test"))) with
  | true => simp [List.find?, h1, h2, h3, h4, h5, h6]
  | false =>
  cases h7 : (jsIncludesStr r "no mail servers" || jsIncludesStr r "domain verification failed") with
  | true => simp [List.find?, h1, h2, h3, h4, h5, h6, h7]
  | false => simp [List.find?, h1, h2, h3, h4, h5, h6, h7]

/-- The subscribe mapper's if-chain equals a first-match scan of its table. -/
theorem subscribe_mapper_eq_table (reason : String) :
    Subscribe.userMessageForReason reason =
      tableLookup Subscribe.mapperRows Subscribe.fallbackMessage reason := by
  simp only [Subscribe.userMessageForReason, tableLookup, Subscribe.mapperRows,
    Subscribe.fallbackMessage]
  generalize String.mk (jsToLower reason.data) = r
  simp only [Bool.or_assoc]
  cases h1 : jsIncludesStr r "empty" with
  | true => simp [List.find?, h1]
  | false =>
  cases h2 : (jsIncludesStr r "invalid format" || (jsIncludesStr r "invalid local" || (jsIncludesStr r "invalid domain" || jsIncludesStr r "invalid format"))) with
  | true => simp [List.find?, h1, h2]
  | false =>
  cases h3 : (jsIncludesStr r "local part too long" || jsIncludesStr r "domain too long") with
  | true => simp [List.find?, h1, h2, h3]
  | false =>
  cases h4 : (jsIncludesStr r "blocked domain" || jsIncludesStr r "example") with
  | true => simp [List.find?, h1, h2, h3, h4]
  | false =>
  cases h5 : (jsIncludesStr r "disposable" || (jsIncludesStr r "temporary" || jsIncludesStr r "temp")) with
  | true => simp [List.find?, h1, h2, h3, h4, h5]
  | false =>
  cases h6 : (jsIncludesStr r "role" || (jsIncludesStr r "test" || (jsIncludesStr r "dummy" || jsIncludesStr r "role or test"))) with
  | true => simp [List.find?, h1, h2, h3, h4, h5, h6]
  | false =>
  cases h7 : (jsIncludesStr r "no mail servers" || jsIncludesStr r "domain verification failed") with
  | true => simp [List.find?, h1, h2, h3, h4, h5, h6, h7]
  | false => simp [List.find?, h1, h2, h3, h4, h5, h6, h7]

/-- A table lookup returns the fallback or one of the rows' messages. -/
theorem tableLookup_mem (rows : List (List String × UserMessage)) (fb : UserMessage)
    (reason : String) :
    tableLookup rows fb reason ∈ fb :: rows.map Prod.snd := by
  simp only [tableLookup]
  cases h : List.find? (fun row => row.1.any fun pat => jsIncludesStr (String.mk (jsToLower reason.data)) pat) rows with
  | none => exact List.mem_cons_self fb (rows.map Prod.snd)
  | some row =>
    have hx : row ∈ rows := List.mem_of_find?_eq_some h
    simp only [List.mem_cons, List.mem_map]
    exact Or.inr ⟨row, hx, rfl⟩

/-- Every message the contact table (or its fallback) can return carries
one of the eight stable codes and the field `email`. -/
theorem contact_table_codes (reason : String) :
    theEightCodes.contains (tableLookup Contact.mapperRows Contact.fallbackMessage reason).code = true ∧
      (tableLookup Contact.mapperRows Contact.fallbackMessage reason).field = "email" := by
  have hmem := tableLookup_mem Contact.mapperRows Contact.fallbackMessage reason
  have hall : ∀ m ∈ Contact.fallbackMessage :: Contact.mapperRows.map Prod.snd,
      theEightCodes.contains m.code = true ∧ m.field = "email" := by decide
  exact hall _ hmem

/-- Every message the subscribe table (or its fallback) can return carries
one of the eight stable codes and the field `email`. -/
theorem subscribe_table_codes (reason : String) :
    theEightCodes.contains (tableLookup Subscribe.mapperRows Subscribe.fallbackMessage reason).code = true ∧
      (tableLookup Subscribe.mapperRows Subscribe.fallbackMessage reason).field = "email" := by
  have hmem := tableLookup_mem Subscribe.mapperRows Subscribe.fallbackMessage reason
  have hall : ∀ m ∈ Subscribe.fallbackMessage :: Subscribe.mapperRows.map Prod.snd,
      theEightCodes.contains m.code = true ∧ m.field = "email" := by decide
  exact hall _ hmem

/-- Claim C5: both embedded mappers are pure and total — for every reason
string they return a `{code, message, field}` triple whose code is one of
the eight stable codes and whose field is `email`; each mapper equals a
first-match substring scan of its table on the lowercased reason; and a
reason matching no table row gets the generic fallback message (code
`email_unacceptable`). -/
theorem mapper_total_first_match_table (reason : String) :
    Contact.userMessageForReason reason =
        tableLookup Contact.mapperRows Contact.fallbackMessage reason ∧
      Subscribe.userMessageForReason reason =
        tableLookup Subscribe.mapperRows Subscribe.fallbackMessage reason ∧
      theEightCodes.contains (Contact.userMessageForReason reason).code = true ∧
      theEightCodes.contains (Subscribe.userMessageForReason reason).code = true ∧
      (Contact.userMessageForReason reason).field = "email" ∧
      (Subscribe.userMessageForReason reason).field = "email" ∧
      ((∀ row ∈ Contact.mapperRows,
          row.1.any (fun pat => jsIncludesStr (String.mk (jsToLower reason.data)) pat) = false) →
        Contact.userMessageForReason reason = Contact.fallbackMessage) := by
  have hc := contact_mapper_eq_table reason
  have hs := subscribe_mapper_eq_table reason
  have hcc := contact_table_codes reason
  have hsc := subscribe_table_codes reason
  refine ⟨hc, hs, ?_, ?_, ?_, ?_, ?_⟩
  · rw [hc]; exact hcc.1
  · rw [hs]; exact hsc.1
  · rw [hc]; exact hcc.2
  · rw [hs]; exact hsc.2
  · intro hnone
    rw [hc]
    simp only [tableLookup]
    rw [List.find?_eq_none.mpr ?_]
    · intro row hrow
      simp [hnone row hrow]

/-- `splitOnChar` never returns the empty list of pieces. -/
theorem splitOnChar_ne_nil (sep : Char) (l : List Char) : splitOnChar sep l ≠ [] := by
  cases l with
  | nil => simp [splitOnChar]
  | cons c cs =>
    simp only [splitOnChar]
    cases hc : c == sep with
    | true => simp
    | false =>
      cases hs : splitOnChar sep cs with
      | nil => simp
      | cons h t => simp

/-- A one-piece split means the separator never occurred. -/
theorem splitOnChar_single (sep : Char) (l : List Char) :
    ∀ y, splitOnChar sep l = [y] → y = l := by
  induction l with
  | nil => intro y hy; simp [splitOnChar] at hy; exact hy
  | cons c cs ih =>
    intro y hy
    simp only [splitOnChar] at hy
    cases hc : c == sep with
    | true =>
      rw [hc] at hy
      simp at hy
      exact absurd hy.2 (splitOnChar_ne_nil sep cs)
    | false =>
      rw [if_neg (by simp [hc])] at hy
      cases hs : splitOnChar sep cs with
      | nil => exact absurd hs (splitOnChar_ne_nil sep cs)
      | cons h t =>
        rw [hs] at hy
        simp at hy
        obtain ⟨hy1, ht⟩ := hy
        rw [ht] at hs
        have hcs := ih h hs
        rw [← hy1, hcs]

/-- A two-piece split decomposes the list around its only separator. -/
theorem splitOnChar_pair (sep : Char) (l : List Char) :
    ∀ a b, splitOnChar sep l = [a, b] → hasChar sep a = false ∧ l = a ++ sep :: b := by
  induction l with
  | nil => intro a b hab; simp [splitOnChar] at hab
  | cons c cs ih =>
    intro a b hab
    simp only [splitOnChar] at hab
    cases hc : c == sep with
    | true =>
      rw [hc] at hab
      simp only [if_pos] at hab
      have hceq : c = sep := eq_of_beq hc
      obtain ⟨ha, hb⟩ : [] = a ∧ splitOnChar sep cs = [b] := by
        constructor
        · exact (List.cons_eq_cons.mp hab).1
        · exact (List.cons_eq_cons.mp hab).2
      have hbcs := splitOnChar_single sep cs b hb
      subst hceq
      constructor
      · rw [← ha]; rfl
      · rw [← ha, hbcs]; rfl
    | false =>
      rw [if_neg (by simp [hc])] at hab
      cases hs : splitOnChar sep cs with
      | nil => exact absurd hs (splitOnChar_ne_nil sep cs)
      | cons h t =>
        rw [hs] at hab
        have hch : c :: h = a := (List.cons_eq_cons.mp hab).1
        have ht : t = [b] := (List.cons_eq_cons.mp hab).2
        rw [ht] at hs
        obtain ⟨hno, hdec⟩ := ih h b hs
        constructor
        · rw [← hch]
          simp [hasChar, hc]
          intro x hx
          have := hno
          simp [hasChar] at this
          exact this x hx
        · rw [← hch, hdec]
          rfl

/-- `afterChar` past a separator-free prefix lands right after `sep`. -/
theorem afterChar_append (sep : Char) (a b : List Char) (h : hasChar sep a = false) :
    afterChar sep (a ++ sep :: b) = some b := by
  induction a with
  | nil => simp [afterChar]
  | cons x xs ih =>
    simp only [hasChar, List.any_cons, Bool.or_eq_false_iff] at h
    have hxs : hasChar sep xs = false := h.2
    show afterChar sep (x :: (xs ++ sep :: b)) = some b
    simp only [afterChar]
    rw [if_neg (by simp [h.1])]
    exact ih hxs

/-- `hasChar` is membership. -/
theorem hasChar_iff_mem (c : Char) (l : List Char) : hasChar c l = true ↔ c ∈ l := by
  simp [hasChar, List.any_eq_true]

/-- An interior dot is in particular a dot somewhere in the list. -/
theorem hasChar_of_interiorDot (l : List Char) (h : interiorDot l = true) :
    hasChar '.' l = true := by
  rw [hasChar_iff_mem]
  unfold interiorDot at h
  rw [hasChar_iff_mem] at h
  exact List.drop_subset 1 l (List.dropLast_subset (List.drop 1 l) h)

/-- If the candidate has no `@`, or no dot after its first `@`, the format
regex rejects it. -/
theorem simpleEmailTest_false (raw : List Char)
    (h : hasChar '@' raw = false ∨ hasDotAfterAt raw = false) :
    simpleEmailTest raw = false := by
  unfold simpleEmailTest
  cases hsp : splitOnChar '@' raw with
  | nil => rfl
  | cons a t =>
    cases t with
    | nil => rfl
    | cons b t2 =>
      cases t2 with
      | cons u t3 => rfl
      | nil =>
        obtain ⟨hna, hl⟩ := splitOnChar_pair '@' raw a b hsp
        have hat : hasChar '@' raw = true := by
          rw [hasChar_iff_mem, hl]
          exact List.mem_append_right a (List.mem_cons_self _ _)
        have hdaa : hasDotAfterAt raw = false := by
          rcases h with h | h
          · rw [hat] at h; exact absurd h (by simp)
          · exact h
        have hrest : hasChar '.' b = false := by
          unfold hasDotAfterAt at hdaa
          rw [hl, afterChar_append '@' a b hna] at hdaa
          exact hdaa
        have hid : interiorDot b = false := by
          cases hcid : interiorDot b with
          | false => rfl
          | true => exact absurd (hasChar_of_interiorDot b hcid) (by simp [hrest])
        simp [hid]

/-- Claim C6: every candidate that is non-empty after trimming but has no
`@`, or no dot after its first `@`, is rejected with reason
`invalid format` (whatever the DNS flag and world). -/
theorem no_at_or_no_dot_invalid_format (checkMx : Bool) (env : DnsEnv) (email : String)
    (h1 : jsTrimList email.data ≠ [])
    (h2 : hasChar '@' (jsTrimList email.data) = false ∨
      hasDotAfterAt (jsTrimList email.data) = false) :
    Contact.isAcceptableEmail checkMx env email = .rejected "invalid format" := by
  have ht := simpleEmailTest_false _ h2
  have hne : (jsTrimList email.data).isEmpty = false := by
    cases hcase : jsTrimList email.data with
    | nil => exact absurd hcase h1
    | cons x xs => rfl
  have hp : Contact.pureVerdict (jsTrimList email.data) = some "invalid format" := by
    unfold Contact.pureVerdict
    rw [hne, ht]
    rfl
  unfold Contact.isAcceptableEmail
  rw [hp]

/-- Claim C6 (witness): `a@bc` is non-empty, has no dot after its `@`, and
is rejected with `invalid format`. -/
theorem no_at_or_no_dot_invalid_format_witness :
    jsTrimList "a@bc".data ≠ [] ∧
      hasDotAfterAt (jsTrimList "a@bc".data) = false ∧
      Contact.isAcceptableEmail false envAllOk "a@bc" = .rejected "invalid format" :=
  ⟨by decide, by decide,
    no_at_or_no_dot_invalid_format false envAllOk "a@bc" (by decide) (Or.inr (by decide))⟩

/-- `dropWhile` is idempotent. -/
theorem dropWhile_self (p : Char → Bool) (l : List Char) :
    (l.dropWhile p).dropWhile p = l.dropWhile p := by
  induction l with
  | nil => rfl
  | cons x xs ih =>
    by_cases h : p x = true
    · simp [List.dropWhile_cons, h, ih]
    · simp [List.dropWhile_cons, h]

/-- A prefix of a list that `dropWhile` fixes is itself fixed. -/
theorem dropWhile_eq_self_of_prefix (p : Char → Bool) (m r : List Char)
    (hm : m.dropWhile p = m) (hpre : r <+: m) : r.dropWhile p = r := by
  cases r with
  | nil => rfl
  | cons y t =>
    obtain ⟨u, hu⟩ := hpre
    have hwy : p y = false := by
      by_contra hw
      rw [Bool.not_eq_false] at hw
      have h2 := hm
      rw [← hu, List.cons_append, List.dropWhile_cons, if_pos hw] at h2
      have hlen : ((t ++ u).dropWhile p).length ≤ (t ++ u).length :=
        (List.dropWhile_suffix p).sublist.length_le
      rw [h2] at hlen
      simp at hlen
    rw [List.dropWhile_cons, if_neg (by simp [hwy])]

/-- Trimming is idempotent (the model of `.trim()` is a closure operator). -/
theorem jsTrimList_idem (l : List Char) : jsTrimList (jsTrimList l) = jsTrimList l := by
  have hm : (l.dropWhile isJsWhitespace).dropWhile isJsWhitespace = l.dropWhile isJsWhitespace :=
    dropWhile_self _ l
  have hsuf : (l.dropWhile isJsWhitespace).reverse.dropWhile isJsWhitespace <:+
      (l.dropWhile isJsWhitespace).reverse := List.dropWhile_suffix _
  have hpre : jsTrimList l <+: l.dropWhile isJsWhitespace := by
    unfold jsTrimList
    have h3 := List.reverse_prefix.mpr hsuf
    rwa [List.reverse_reverse] at h3
  have hLr : (jsTrimList l).dropWhile isJsWhitespace = jsTrimList l :=
    dropWhile_eq_self_of_prefix _ _ _ hm hpre
  have hrev : (jsTrimList l).reverse = (l.dropWhile isJsWhitespace).reverse.dropWhile isJsWhitespace := by
    unfold jsTrimList
    rw [List.reverse_reverse]
  show (((jsTrimList l).dropWhile isJsWhitespace).reverse.dropWhile isJsWhitespace).reverse = jsTrimList l
  rw [hLr, hrev, dropWhile_self]
  show jsTrimList l = jsTrimList l
  rfl

/-- `dropWhile` empties a list all of whose elements satisfy `p`. -/
theorem dropWhile_all_nil (p : Char → Bool) (l : List Char) (h : l.all p = true) :
    l.dropWhile p = [] := by
  induction l with
  | nil => rfl
  | cons x xs ih =>
    simp only [List.all_cons, Bool.and_eq_true] at h
    simp [List.dropWhile_cons, h.1, ih h.2]

/-- Trimming a whitespace-only list gives the empty list. -/
theorem jsTrimList_all_ws (l : List Char) (h : l.all isJsWhitespace = true) :
    jsTrimList l = [] := by
  unfold jsTrimList
  rw [dropWhile_all_nil _ _ h]
  rfl

/-- Claim C10: with DNS verification disabled the filter is invariant under
surrounding whitespace — it equals itself on the trimmed candidate — and a
whitespace-only candidate is rejected exactly like the empty string, with
reason `empty email`. -/
theorem trim_invariance (email : String) (env : DnsEnv) :
    Contact.isAcceptableEmail false env email =
        Contact.isAcceptableEmail false env (String.mk (jsTrimList email.data)) ∧
      (email.data.all isJsWhitespace = true →
        Contact.isAcceptableEmail false env email = Contact.isAcceptableEmail false env "" ∧
          Contact.isAcceptableEmail false env email = .rejected "empty email") := by
  constructor
  · unfold Contact.isAcceptableEmail
    rw [show (String.mk (jsTrimList email.data)).data = jsTrimList email.data from rfl,
      jsTrimList_idem]
  · intro hws
    have h0 : jsTrimList email.data = [] := jsTrimList_all_ws _ hws
    unfold Contact.isAcceptableEmail
    rw [h0]
    exact ⟨rfl, rfl⟩

/-- Claim C10 (witness): a two-space string trims to the trimmed form and
is rejected with `empty email`. -/
theorem trim_invariance_witness :
    "  ".data.all isJsWhitespace = true ∧
      Contact.isAcceptableEmail false envAllOk "  " = .rejected "empty email" :=
  ⟨by decide, ((trim_invariance "  " envAllOk).2 (by decide)).2⟩

/-- Claim C2 (amended): with DNS verification enabled, on a candidate that
passes all earlier rules, an MX lookup error yields
`domain verification failed`; the reason
`no mail servers for domain (MX/A/AAAA missing)` is produced exactly when
the MX lookup completes empty and each of the A and AAAA lookups either
completes empty or raises (its error being folded to an empty result by
`.catch(() => [])`). -/
theorem dns_failure_modes (email : String) (env : DnsEnv)
    (hpass : Contact.pureVerdict (jsTrimList email.data) = none) :
    (env.mx = .failure →
      Contact.isAcceptableEmail true env email = .rejected "domain verification failed") ∧
      (Contact.isAcceptableEmail true env email =
          .rejected "no mail servers for domain (MX/A/AAAA missing)" ↔
        env.mx = .success [] ∧ effRecords env.a = [] ∧ effRecords env.aaaa = []) := by
  unfold Contact.isAcceptableEmail
  rw [hpass]
  obtain ⟨mx, a, aaaa⟩ := env
  constructor
  · intro hmx
    simp only at hmx
    subst hmx
    rfl
  · simp only
    cases mx with
    | failure =>
      constructor
      · intro h
        have h2 : Verdict.rejected "domain verification failed" =
            Verdict.rejected "no mail servers for domain (MX/A/AAAA missing)" := h
        exact absurd h2 (by decide)
      · rintro ⟨hcontra, -, -⟩
        exact DnsResult.noConfusion hcontra
    | success l =>
      cases l with
      | nil =>
        by_cases hA : effRecords a = [] <;> by_cases hB : effRecords aaaa = [] <;>
          simp [Contact.dnsVerdict, hA, hB, List.isEmpty_iff]
      | cons x xs => simp [Contact.dnsVerdict]

/-- Claim C2 (witness): `jane.doe@gmail.com` passes the pure rules, and a
failing MX lookup rejects it as unverifiable. -/
theorem dns_failure_modes_witness :
    Contact.pureVerdict (jsTrimList "jane.doe@gmail.com".data) = none ∧
      Contact.isAcceptableEmail true ⟨.failure, .success [], .success []⟩ "jane.doe@gmail.com" =
        .rejected "domain verification failed" :=
  ⟨by decide,
    (dns_failure_modes "jane.doe@gmail.com" ⟨.failure, .success [], .success []⟩ (by decide)).1 rfl⟩

/-- Claim C5 (witness): `mystery reason` matches no table row, carries a
stable code, and gets the generic fallback message. -/
theorem mapper_total_first_match_table_witness :
    theEightCodes.contains (Contact.userMessageForReason "mystery reason").code = true ∧
      Contact.userMessageForReason "mystery reason" = Contact.fallbackMessage :=
  ⟨(mapper_total_first_match_table "mystery reason").2.2.1,
    (mapper_total_first_match_table "mystery reason").2.2.2.2.2.2 (by decide)⟩
